import Mathlib

/-!
Shallow embedding of `src/dsa3.py` (the AIMS chatbot shared queue):
the `QueueManager` state machine, its persistence dictionary, and the
`AIMSKnowledgeBase` resolver, together with proofs of the specification
claims about them.

Modelling conventions:
* Python ISO-8601 timestamp strings are modelled by `TStamp`: `good t` is a
  string that `datetime.fromisoformat` parses to the instant `t` (seconds as an
  exact rational), `bad s` is a string the parser rejects with an exception.
* `time.time()` / `datetime.now()` readings are passed in as an explicit
  `now : ℚ` parameter; calls that read the clock several times in one Python
  method body (microseconds apart) are modelled with one reading.
* Python `dict` (insertion ordered, unique keys) is modelled as an association
  list; assignment is `upsert`.
* Python floats are modelled as exact rationals ℚ.
-/

namespace DSA3

/-- A stored timestamp string: `good t` models an ISO string parsing to instant
`t`, `bad s` models an unparseable string `s`. -/
inductive TStamp where
  | good (t : ℚ)
  | bad (s : String)
deriving DecidableEq, Repr

/-- `datetime.fromisoformat`, made total: `none` models the `ValueError` path. -/
def TStamp.parse : TStamp → Option ℚ
  | .good t => some t
  | .bad _ => none

/-- A queued request, the `msg_obj` dict built by `add_user_message`. -/
structure Message where
  id : Nat
  message : String
  timestamp : TStamp
  user_id : String
deriving DecidableEq, Repr

/-- A produced answer, the `response` dict built by `process_next_message`. -/
structure Response where
  id : Nat
  response : String
  original_message : String
  user_id : String
  timestamp : TStamp
deriving DecidableEq, Repr

/-- One entry of `conversation_history`.  The source stores the response
timestamp formatted with `strftime` as a time-of-day string; it is modelled by
the parsed instant that gets formatted. -/
structure ChatEntry where
  user : String
  bot : String
  time : ℚ
  user_id : String
deriving DecidableEq, Repr

/-- One entry of `queue_log`. -/
structure LogEntry where
  time : TStamp
  action : String
  queue_size : Nat
deriving DecidableEq, Repr

/-- The `QueueManager` object state. `active_users` is the Python dict
`client_id -> iso timestamp` as an insertion-ordered association list;
`last_process_time` is a `time.time()` float or `None`. -/
structure QueueManager where
  message_queue : List Message
  processing_queue : List Message
  response_queue : List Response
  conversation_history : List ChatEntry
  active_users : List (String × TStamp)
  start_time : TStamp
  queue_log : List LogEntry
  last_process_time : Option ℚ
  total_messages : Nat
  processed_count : Nat
deriving DecidableEq, Repr

/-- `QueueManager.__init__` at clock reading `now` (fresh empty state). -/
def initQM (now : ℚ) : QueueManager :=
  { message_queue := []
    processing_queue := []
    response_queue := []
    conversation_history := []
    active_users := []
    start_time := .good now
    queue_log := []
    last_process_time := none
    total_messages := 0
    processed_count := 0 }

/-- Python dict assignment `d[k] = v` on an association list: update the value
in place when the key is present, append otherwise. -/
def upsert (l : List (String × TStamp)) (k : String) (v : TStamp) :
    List (String × TStamp) :=
  if l.any (fun p => p.1 = k) then
    l.map (fun p => if p.1 = k then (k, v) else p)
  else l ++ [(k, v)]

/-- `QueueManager.enqueue`. -/
def enqueue (qm : QueueManager) (msg_obj : Message) : QueueManager :=
  { qm with message_queue := qm.message_queue ++ [msg_obj] }

/-- `QueueManager.dequeue`: pop the head of `message_queue`, `None` if empty. -/
def dequeue (qm : QueueManager) : Option Message × QueueManager :=
  match qm.message_queue with
  | [] => (none, qm)
  | m :: rest => (some m, { qm with message_queue := rest })

/-- `QueueManager.add_user_message` at clock reading `now`. -/
def add_user_message (qm : QueueManager) (message user_id : String) (now : ℚ) :
    QueueManager :=
  let msg_obj : Message :=
    { id := qm.total_messages + 1
      message := message
      timestamp := .good now
      user_id := user_id }
  let qm1 := enqueue qm msg_obj
  { qm1 with
    total_messages := qm1.total_messages + 1
    active_users := upsert qm1.active_users user_id (.good now)
    queue_log := qm1.queue_log ++
      [{ time := .good now, action := "enqueued",
         queue_size := qm1.message_queue.length }] }

/-- The rate-limit guard of `process_next_message`:
`self.last_process_time and (current_time - self.last_process_time) < 3.0`.
Python truthiness makes a `last_process_time` of `None` or `0` skip the check. -/
def throttleGuard (lpt : Option ℚ) (now : ℚ) : Bool :=
  match lpt with
  | none => false
  | some t => if t = 0 then false else decide (now - t < 3)

/-- One entry of `AIMSKnowledgeBase.procedures`. -/
structure Procedure where
  keywords : List String
  category : String
  response : String
deriving DecidableEq, Repr

/-- Procedure 0 of `AIMSKnowledgeBase.procedures` (category Enrollment). -/
def procEnrollment : Procedure :=
  { keywords := ["enroll", "enrollment", "register", "enlist", "add subject"]
    category := "Enrollment"
    response := "📄 **How to Enroll in Subjects via AIMS**

1.  **Log in** to your AIMS portal and navigate to the **Registration** tab.

2.  First, select your designated **Section** from the dropdown menu at the top right of the page (e.g., \"A NORTH\").

3.  In the **ADD SUBJECTS** section below, click the green circle next to each course you need to take for that section.

4.  For each added subject, use the \"Schedule\" dropdown to select a class time. The options will be based on the section you chose in step 2.

5.  After selecting all your schedules, scroll down and click the **Assess** button.

6.  This will take you to the final Registration (Assessment) page.

7.  To complete your enrollment, you must now pay your miscellaneous fees. Once payment is successful, the portal will confirm your status with the message: \"YOU ARE NOW OFFICIALLY ENROLLED!\"

💡 **Heads-Up:** For a smoother enrollment, it's a good idea to verify your official section with your department beforehand.
*If you encounter any problems please see the Registrars Office." }

/-- Procedure 1 of `AIMSKnowledgeBase.procedures` (category Fee Payment). -/
def procFeePayment : Procedure :=
  { keywords := ["pay tuition", "tuition fee", "how to pay", "miscellaneous fee", "make payment", "payment process", "assessment fee"]
    category := "Fee Payment"
    response := "💳 **How to Pay Your Assessed Fees**

At UCC, tuition is free! The payment you make after enrolling is for your miscellaneous fees. Here's how to complete that process:

1.  On the final assessment page, locate the **TOTAL TUITION & FEES** section. This will show the total amount for your miscellaneous fees.

2.  Click on the **\"Select mode of payment\"** dropdown menu.

3.  Choose your preferred payment method from the list.

4.  After selecting a method, click the button to **Proceed with Payment**.

5.  Follow the instructions to complete the transaction for your miscellaneous fees.

6.  Once your payment is successful, always **save a copy of your transaction receipt** or Official Receipt (O.R.) for your records.

After your payment is confirmed, the page will update with the message, \"**YOU ARE NOW OFFICIALLY ENROLLED!**\"

💡 **Important:** Ensure you settle your miscellaneous fees before the payment deadline to validate your enrollment for the semester." }

/-- Procedure 2 of `AIMSKnowledgeBase.procedures` (category Grades). -/
def procGrades : Procedure :=
  { keywords := ["grades", "grade", "gwa", "marks", "scores", "results"]
    category := "Grades"
    response := "📊 **How to Check Your Grades in AIMS**

1. Login to your AIMS portal account.

2. In the main navigation bar at the top, click on the \"Grades\" tab.

3. Select the appropriate School Year and Semester from the dropdown menus.

4. The page will display your grades table.

5. Review your grades for each subject listed.

📈 Understanding Your Grades:
* 1.0 – 3.0: Passing grades
* 4.0 – 5.0: Failing grades
* INC: Incomplete
* For inquiries, email: ucc@pinnacleasia.com" }

/-- Procedure 3 of `AIMSKnowledgeBase.procedures` (category Other Payments). -/
def procOtherPayments : Procedure :=
  { keywords := ["other payments", "other fees"]
    category := "Other Payments"
    response := "💸 **AIMS Other Payments Guide**

1. Login to your AIMS portal account.

2. Navigate to the **Other Payments** section on the portal.

3. Click on the **Other Fees** option from the menu.

4. Choose your academic **Section** from the list provided.

5. Select the specific fee you need to pay, then enter the required quantity and amount.

6. Click the **Continue to Payment** button to proceed and finalize the transaction.

💡 **Troubleshooting Tip:**
* If you encounter an error, please wait a few moments before trying the process again.
* For inquiries, email: ucc@pinnacleasia.com" }

/-- Procedure 4 of `AIMSKnowledgeBase.procedures` (category Schedule). -/
def procSchedule : Procedure :=
  { keywords := ["schedule", "class", "timetable", "time", "room"]
    category := "Schedule"
    response := "📅 **Checking Your Class Schedule**

1.  Login to your AIMS portal account.

2.  In the main navigation bar at the top, click on the **\"Schedule\"** tab.

3.  The page will display your complete class schedule for the current semester.

4.  You can easily find the specific time, day, and room assignment for each class in the timetable.

📱 **Pro Tip:** Take a screenshot of this page at the beginning of the semester so you always have an offline copy of your schedule." }

/-- Procedure 5 of `AIMSKnowledgeBase.procedures` (category Registration Form). -/
def procRegistrationForm : Procedure :=
  { keywords := ["registration form", "download registration", "get registration form", "cor", "print form", "enrollment form"]
    category := "Registration Form"
    response := "📄 **How to Download Your Registration Form (COR)**

1.  **Log in** to your AIMS portal account.

2.  In the main navigation bar, click on the **Account** tab.

3.  On the Account page, click the **Registration Form** tab, which is located next to \"Statement of Account\".

4.  Your official Registration Form will now be displayed in a PDF viewer.

5.  To save or print your form, use the icons at the top of the PDF viewer:
    * Click the **Download** icon (downward arrow) to save a PDF copy directly to your computer.
    * Click the **Print** icon (printer symbol) to send the form to a printer.

💡 **Pro Tip:** Always save a digital copy of your registration form at the beginning of the semester for your records." }

/-- Procedure 6 of `AIMSKnowledgeBase.procedures` (category Account History). -/
def procAccountHistory : Procedure :=
  { keywords := ["statement of account", "soa", "payment history", "account history", "check balance", "view balance", "fees paid", "payment records"]
    category := "Account History"
    response := "📜 **How to Check Your Payment History (Statement of Account)**

1.  **Log in** to your AIMS portal account.

2.  In the main navigation bar, click on the **Account** tab.

3.  Under the **Assessment Fees** section, click on a specific semester to view its detailed breakdown.

4.  The page will display your full Statement of Account for that term.

5.  To download an official copy, click the **Statement of Account** link, usually found in the upper or lower left corner of the page.

**Understanding Your Statement:**
* **Assessment:** The total amount billed for your fees.
* **Payment:** The total amount you have already paid.
* **Balance:** The remaining amount you still need to settle.

📞 **For Inquiries:**
* If you have questions about your statement, please see the Registrar's Office." }

/-- Procedure 7 of `AIMSKnowledgeBase.procedures` (category Password). -/
def procPassword : Procedure :=
  { keywords := ["password", "change password", "update password", "reset password", "account security"]
    category := "Password"
    response := "🔑 **How to Change Your AIMS Password**

Follow these steps to update your account password for better security.

1.  **Log in** to your AIMS portal account.

2.  Navigate to the **Password** tab in the main menu.

3.  In the **Old Password** field, enter your current password.

4.  In the **Choose a new password** and **Confirm Password** fields, enter your desired new password.

5.  Click the **Change Password** button to save your changes.

🔐 **Password Requirements:**
* If you see an error, make sure your new password meets the portal's security requirements (e.g., uppercase letters, numbers, symbols)." }


/-- The ordered procedure list of `AIMSKnowledgeBase.__init__`. -/
def procedures : List Procedure :=
  [procEnrollment, procFeePayment, procGrades, procOtherPayments,
   procSchedule, procRegistrationForm, procAccountHistory, procPassword]

/-- `AIMSKnowledgeBase.get_default_help`. -/
def get_default_help : String :=
  "👋 **Welcome to AIMSsist!**

I'm your virtual assistant for the UCC AIMS Portal. I can help you with:

📄 **Enrollment** - How to register for subjects

💳 **Fee Payment** - How to pay your assessed miscellaneous fees

💸 **Other Payments** - Guides for other portal payments     
📊 **Grades** - How to check your semester grades

📅 **Schedule** - How to view your class schedule

🔑 **Password** - How to change your account password

📜 **Documents** - How to download your Registration Form and Statement Of Account

**Try asking:**
* \"How do I enroll?\"
* \"How to pay my fees?\"
* \"How can I see my schedule?\"

Type your question below! 👇"

/-- Python substring test `needle in haystack` on strings. -/
def strContains (needle haystack : String) : Bool :=
  haystack.data.tails.any fun t => needle.data.isPrefixOf t

/-- Python `str.lower()`, modelled per character with `Char.toLower`; the two
agree on the ASCII text the procedures' keywords are written in. -/
def pyLower (s : String) : String :=
  ⟨s.data.map Char.toLower⟩

/-- `AIMSKnowledgeBase.search_procedure`: lowercase the input, return the first
procedure in list order one of whose keywords occurs in it. -/
def search_procedure (procs : List Procedure) (user_message : String) :
    Option Procedure :=
  let user_msg_lower := pyLower user_message
  procs.find? fun procedure =>
    procedure.keywords.any fun keyword => strContains keyword user_msg_lower

/-- `QueueManager.process_next_message` with knowledge base `procs`, at clock
reading `now` (the method reads `time.time()` for the rate limit and
`datetime.now()` for the response timestamp; both are modelled by `now`).
Returns the boolean result and the mutated state.  The guarded
`processing_queue.pop(0)` is modelled by `List.tail`, which agrees with it on
the empty list. -/
def process_next_message (qm : QueueManager) (procs : List Procedure)
    (now : ℚ) : Bool × QueueManager :=
  if throttleGuard qm.last_process_time now then (false, qm)
  else
    match dequeue qm with
    | (none, _) => (false, qm)
    | (some msg, qm1) =>
      let qm2 := { qm1 with
        processing_queue := qm1.processing_queue ++ [msg]
        last_process_time := some now }
      let response_text :=
        match search_procedure procs msg.message with
        | some procedure => procedure.response
        | none => get_default_help
      let response : Response :=
        { id := msg.id
          response := response_text
          original_message := msg.message
          user_id := msg.user_id
          timestamp := .good now }
      let qm3 := { qm2 with response_queue := qm2.response_queue ++ [response] }
      let qm4 := { qm3 with processing_queue := qm3.processing_queue.tail }
      (true, { qm4 with processed_count := qm4.processed_count + 1 })

/-- `QueueManager.get_queue_position`. -/
def get_queue_position (qm : QueueManager) (user_id : String) : Nat :=
  match qm.message_queue.findIdx? (fun msg => msg.user_id = user_id) with
  | some idx => idx + 1
  | none => 0

/-- Whether one `active_users` entry survives the sweep of
`clean_inactive_users` at clock reading `now`: it must parse and its age must
not exceed the timeout (an unparseable timestamp hits the `except` branch and
is evicted). -/
def keepActive (now timeout_seconds : ℚ) : String × TStamp → Bool
  | (_, last_active) =>
    match last_active.parse with
    | some t => decide ¬(now - t > timeout_seconds)
    | none => false

/-- `QueueManager.clean_inactive_users` at clock reading `now`. -/
def clean_inactive_users (qm : QueueManager) (timeout_seconds : ℚ)
    (now : ℚ) : QueueManager :=
  { qm with active_users := qm.active_users.filter (keepActive now timeout_seconds) }

/-- `QueueManager.update_user_activity` at clock reading `now`. -/
def update_user_activity (qm : QueueManager) (user_id : String) (now : ℚ) :
    QueueManager :=
  { qm with active_users := upsert qm.active_users user_id (.good now) }

/-- Python `int()` on a float/rational: truncation toward zero, i.e.
T-division of the numerator by the denominator. -/
def pyInt (q : ℚ) : ℤ :=
  q.num.tdiv q.den

/-- The dict returned by `QueueManager.get_queue_stats`.
`avg_processing_time` is the untruncated quotient; `uptime_seconds` is
`int(uptime)`. -/
structure Stats where
  total_input : Nat
  processing : Nat
  response_queue : Nat
  total_processed : Nat
  active_users : Nat
  avg_processing_time : ℚ
  uptime_seconds : ℤ
deriving DecidableEq, Repr

/-- `QueueManager.get_queue_stats` at clock reading `now`: sweeps inactive
users with the 15-second default, computes uptime from `start_time`
(0 when it fails to parse), and returns the stats dict next to the mutated
state. -/
def get_queue_stats (qm : QueueManager) (now : ℚ) : Stats × QueueManager :=
  let qm := clean_inactive_users qm 15 now
  let uptime : ℚ :=
    match qm.start_time.parse with
    | some start => now - start
    | none => 0
  let avg_time : ℚ := if qm.processed_count > 0 then uptime / qm.processed_count else 0
  ({ total_input := qm.message_queue.length
     processing := qm.processing_queue.length
     response_queue := qm.response_queue.length
     total_processed := qm.processed_count
     active_users := qm.active_users.length
     avg_processing_time := avg_time
     uptime_seconds := pyInt uptime }, qm)

/-- The scan-and-pop loop of `QueueManager.get_response`: the first response
with the given `user_id`, next to the outbox with that response removed. -/
def popFirstResponse (user_id : String) :
    List Response → Option (Response × List Response)
  | [] => none
  | r :: rs =>
    if r.user_id = user_id then some (r, rs)
    else
      match popFirstResponse user_id rs with
      | none => none
      | some (r0, rs0) => some (r0, r :: rs0)

/-- `QueueManager.get_response`.  The result is the Python return value as an
`Except`: `Except.error ()` models the `ValueError` that
`datetime.fromisoformat` raises on an unparseable response timestamp — the
matching response has been popped at that point but no transcript entry is
appended.  On success the matching response is popped, a transcript entry is
appended, and the response is returned; with no match the state is unchanged
and `None` is returned. -/
def get_response (qm : QueueManager) (user_id : String) :
    Except Unit (Option Response) × QueueManager :=
  match popFirstResponse user_id qm.response_queue with
  | none => (.ok none, qm)
  | some (response, rest) =>
    match response.timestamp.parse with
    | none => (.error (), { qm with response_queue := rest })
    | some t =>
      (.ok (some response),
       { qm with
         response_queue := rest
         conversation_history := qm.conversation_history ++
           [{ user := response.original_message
              bot := response.response
              time := t
              user_id := user_id }] })

/-- Python `l[-n:]`: the most recent `n` entries of a list. -/
def pyLastN (n : Nat) (l : List α) : List α :=
  l.drop (l.length - n)

/-- The serialized snapshot written by `QueueManager.to_dict` / read by
`QueueManager.from_dict`.  All ten keys are always present in a dict written by
`to_dict`, so the `.get` defaults of `from_dict` (for absent keys) are not
reachable on a round trip and are not modelled. -/
structure QMData where
  message_queue : List Message
  processing_queue : List Message
  response_queue : List Response
  conversation_history : List ChatEntry
  total_messages : Nat
  processed_count : Nat
  active_users : List (String × TStamp)
  start_time : TStamp
  queue_log : List LogEntry
  last_process_time : Option ℚ
deriving DecidableEq, Repr

/-- `QueueManager.to_dict`: serializes every field, truncating
`conversation_history` to its last 100 and `queue_log` to its last 50 entries. -/
def to_dict (qm : QueueManager) : QMData :=
  { message_queue := qm.message_queue
    processing_queue := qm.processing_queue
    response_queue := qm.response_queue
    conversation_history := pyLastN 100 qm.conversation_history
    total_messages := qm.total_messages
    processed_count := qm.processed_count
    active_users := qm.active_users
    start_time := qm.start_time
    queue_log := pyLastN 50 qm.queue_log
    last_process_time := qm.last_process_time }

/-- `QueueManager.from_dict` on a complete snapshot dict. -/
def from_dict (data : QMData) : QueueManager :=
  { message_queue := data.message_queue
    processing_queue := data.processing_queue
    response_queue := data.response_queue
    conversation_history := data.conversation_history
    total_messages := data.total_messages
    processed_count := data.processed_count
    active_users := data.active_users
    start_time := data.start_time
    queue_log := data.queue_log
    last_process_time := data.last_process_time }

/-- `load_queue` at clock reading `now`, on an existing readable snapshot
`data`: `from_dict` followed by the load-time sweep
`clean_inactive_users(timeout_seconds=30)`. -/
def load_queue (data : QMData) (now : ℚ) : QueueManager :=
  clean_inactive_users (from_dict data) 30 now

/-- One mutating operation of the claim C9 alphabet, with its clock readings. -/
inductive Op where
  | submit (message user_id : String) (now : ℚ)
  | dispatch (now : ℚ)
  | retrieve (user_id : String)
  | heartbeat (user_id : String) (now : ℚ)
  | sweep (timeout_seconds now : ℚ)

/-- Apply one operation to the state (dispatch runs against the fixed AIMS
knowledge base, as `main` does). -/
def applyOp (qm : QueueManager) : Op → QueueManager
  | .submit message user_id now => add_user_message qm message user_id now
  | .dispatch now => (process_next_message qm procedures now).2
  | .retrieve user_id => (get_response qm user_id).2
  | .heartbeat user_id now => update_user_activity qm user_id now
  | .sweep timeout_seconds now => clean_inactive_users qm timeout_seconds now


/-- The response `process_next_message` builds for a popped message `msg` at
clock reading `now`: the matched procedure text, or the default help. -/
def respOf (procs : List Procedure) (msg : Message) (now : ℚ) : Response :=
  { id := msg.id
    response :=
      match search_procedure procs msg.message with
      | some procedure => procedure.response
      | none => get_default_help
    original_message := msg.message
    user_id := msg.user_id
    timestamp := .good now }

/-- One submit of a fold over `(text, client_id, now)` triples. -/
def submitStep (qm : QueueManager) (s : String × String × ℚ) : QueueManager :=
  add_user_message qm s.1 s.2.1 s.2.2

/-- The block of requests a run of submits appends to `pending` when
`total_messages` starts at `base`: ids `base+1, base+2, ...` in arrival order. -/
def buildMsgs (base : Nat) : List (String × String × ℚ) → List Message
  | [] => []
  | s :: rest =>
    { id := base + 1, message := s.1, timestamp := .good s.2.2, user_id := s.2.1 }
      :: buildMsgs (base + 1) rest

/-- The counter bookkeeping invariant behind claim C9: every pending request
was counted by `total_messages` and every processed one by `processed_count`. -/
def countersInv (qm : QueueManager) : Prop :=
  qm.processed_count + qm.message_queue.length = qm.total_messages

/-- Example state for claim C1: a loaded snapshot whose `last_process_time` is
the falsy timestamp `0`, with one pending request. -/
def exC1 : QueueManager :=
  { initQM 0 with
    last_process_time := some 0
    message_queue :=
      [{ id := 1, message := "hi", timestamp := .good 0, user_id := "A" }] }

/-- Example state for claim C2: a leftover request sits in `processing_queue`
(as after a crash mid-dispatch) while one request is pending. -/
def exC2 : QueueManager :=
  { initQM 0 with
    processing_queue :=
      [{ id := 7, message := "stale", timestamp := .good 0, user_id := "X" }]
    message_queue :=
      [{ id := 8, message := "hello", timestamp := .good 0, user_id := "A" }] }

/-- Witness state for claim C2: a fresh state holding one pending request. -/
def exC2w : QueueManager :=
  { initQM 0 with
    message_queue :=
      [{ id := 1, message := "How do I enroll?", timestamp := .good 0,
         user_id := "A" }]
    total_messages := 1 }

/-- Example state for claim C3: one activity entry 31 time units stale. -/
def exC3 : QueueManager :=
  { initQM 0 with active_users := [("A", .good 0)] }

/-- Example state for claim C4: one retrievable response, with the transcript
already holding 101 entries. -/
def exC4 : QueueManager :=
  { initQM 0 with
    response_queue :=
      [{ id := 1, response := "r", original_message := "m", user_id := "A",
         timestamp := .good 0 }]
    conversation_history :=
      List.replicate 101 { user := "u", bot := "b", time := 0, user_id := "A" } }

/-- Witness state for claim C4: responses for clients B then A in the outbox. -/
def exC4w : QueueManager :=
  { initQM 0 with
    response_queue :=
      [{ id := 1, response := "rb", original_message := "mb", user_id := "B",
         timestamp := .good 2 },
       { id := 2, response := "ra", original_message := "ma", user_id := "A",
         timestamp := .good 3 }] }

/-- Witness state for claim C6: one fresh entry and one unparseable entry. -/
def exC6 : QueueManager :=
  { initQM 0 with active_users := [("A", .good 0), ("B", .bad "zzz")] }

/-- Example state for claim C8: two processed requests, started at instant 0. -/
def exC8 : QueueManager :=
  { initQM 0 with processed_count := 2 }

/-- Witness state for claim C10: an unparseable `start_time`. -/
def exC10 : QueueManager :=
  { initQM 0 with start_time := .bad "not-a-date", processed_count := 5 }

/-! ### Generic lemmas -/

/-- A successful `List.find?` splits its list at the first hit: every element
before the hit fails the predicate. -/
theorem find?_split {α : Type} (p : α → Bool) :
    ∀ (l : List α) (a : α), l.find? p = some a →
      p a = true ∧ ∃ pre post, l = pre ++ a :: post ∧ ∀ x ∈ pre, p x = false := by
  intro l
  induction l with
  | nil => intro a h; simp [List.find?] at h
  | cons b bs ih =>
    intro a h
    cases hp : p b with
    | true =>
      rw [List.find?_cons_of_pos _ hp] at h
      obtain rfl : b = a := by simpa using h
      exact ⟨hp, [], bs, rfl, by simp⟩
    | false =>
      rw [List.find?_cons_of_neg _ (by simp [hp])] at h
      obtain ⟨ha, pre, post, rfl, hpre⟩ := ih a h
      refine ⟨ha, b :: pre, post, rfl, ?_⟩
      intro x hx
      rcases List.mem_cons.mp hx with rfl | hx
      · exact hp
      · exact hpre x hx

/-! ### Claim C7 -/

/-- C7: `search_procedure` lowercases its input and returns the first procedure
of the fixed list `procedures` for which some keyword is a substring of the
lowercased input; it returns `none` exactly when no procedure has a matching
keyword, so on an input matching several procedures the earliest in list order
wins. -/
theorem C7_search_procedure_first_match (user_message : String) :
    (search_procedure procedures user_message = none →
      ∀ p ∈ procedures,
        p.keywords.any (fun k => strContains k (pyLower user_message)) = false) ∧
    (∀ p, search_procedure procedures user_message = some p →
      p.keywords.any (fun k => strContains k (pyLower user_message)) = true ∧
      ∃ pre post, procedures = pre ++ p :: post ∧
        ∀ q ∈ pre,
          q.keywords.any (fun k => strContains k (pyLower user_message)) = false) := by
  constructor
  · intro h p hp
    have h0 : (procedures.find? fun procedure =>
        procedure.keywords.any fun keyword =>
          strContains keyword (pyLower user_message)) = none := h
    simpa using List.find?_eq_none.mp h0 p hp
  · intro p h
    have h0 : (procedures.find? fun procedure =>
        procedure.keywords.any fun keyword =>
          strContains keyword (pyLower user_message)) = some p := h
    obtain ⟨ha, pre, post, heq, hpre⟩ := find?_split _ _ _ h0
    exact ⟨ha, pre, post, heq, hpre⟩

set_option maxRecDepth 8000 in
/-- Witness for C7 at the concrete input; it matches both the enrollment and
the fee-payment procedures, and the earlier enrollment one is returned. -/
theorem C7_witness :
    procFeePayment.keywords.any
      (fun k => strContains k (pyLower "Help me enroll and pay tuition")) = true ∧
    procEnrollment.keywords.any
      (fun k => strContains k (pyLower "Help me enroll and pay tuition")) = true ∧
    ∃ pre post, procedures = pre ++ procEnrollment :: post ∧
      ∀ q ∈ pre, q.keywords.any
        (fun k => strContains k (pyLower "Help me enroll and pay tuition")) = false := by
  refine ⟨by decide, by decide, ?_⟩
  exact ((C7_search_procedure_first_match "Help me enroll and pay tuition").2
    procEnrollment (by decide)).2

/-! ### Claim C5 -/

/-- A run of submits appends `buildMsgs` to the pending queue and adds its
length to `total_messages`. -/
theorem submits_foldl (subs : List (String × String × ℚ)) :
    ∀ qm : QueueManager,
      (subs.foldl submitStep qm).message_queue
          = qm.message_queue ++ buildMsgs qm.total_messages subs ∧
      (subs.foldl submitStep qm).total_messages
          = qm.total_messages + subs.length := by
  induction subs with
  | nil => intro qm; simp [buildMsgs]
  | cons s rest ih =>
    intro qm
    have h := ih (submitStep qm s)
    have hq : (submitStep qm s).message_queue
        = qm.message_queue ++
            [{ id := qm.total_messages + 1, message := s.1,
               timestamp := .good s.2.2, user_id := s.2.1 }] := rfl
    have ht : (submitStep qm s).total_messages = qm.total_messages + 1 := rfl
    constructor
    · rw [List.foldl_cons, h.1, hq, ht, buildMsgs]
      simp
    · rw [List.foldl_cons, h.2, ht, List.length_cons]
      omega

/-- The ids of a submit block at base `base` are `base+1, ..., base+n`. -/
theorem buildMsgs_map_id (subs : List (String × String × ℚ)) :
    ∀ base : Nat, (buildMsgs base subs).map Message.id
      = List.range' (base + 1) subs.length := by
  induction subs with
  | nil => intro base; simp [buildMsgs]
  | cons s rest ih =>
    intro base
    rw [buildMsgs]
    simp [List.range', ih (base + 1)]

/-- The payloads of a submit block are the submitted texts and client ids in
arrival order. -/
theorem buildMsgs_map_payload (subs : List (String × String × ℚ)) :
    ∀ base : Nat, (buildMsgs base subs).map (fun m => (m.message, m.user_id))
      = subs.map (fun s => (s.1, s.2.1)) := by
  induction subs with
  | nil => intro base; simp [buildMsgs]
  | cons s rest ih =>
    intro base
    rw [buildMsgs]
    simp [ih (base + 1)]

/-- C5: every submit assigns id `total_submitted + 1`, appends the new request
at the tail of `pending` and increments `total_submitted`; hence after any
sequence of submits from the fresh state, `pending` holds the requests in
arrival order with ids exactly `1, 2, ..., n`. -/
theorem C5_submit_order_and_ids (t0 : ℚ) (subs : List (String × String × ℚ)) :
    (∀ (qm : QueueManager) (message user_id : String) (now : ℚ),
      (add_user_message qm message user_id now).message_queue =
        qm.message_queue ++
          [{ id := qm.total_messages + 1, message := message,
             timestamp := .good now, user_id := user_id }] ∧
      (add_user_message qm message user_id now).total_messages =
        qm.total_messages + 1) ∧
    (subs.foldl submitStep (initQM t0)).message_queue.map Message.id
        = List.range' 1 subs.length ∧
    (subs.foldl submitStep (initQM t0)).message_queue.map
        (fun m => (m.message, m.user_id)) = subs.map (fun s => (s.1, s.2.1)) ∧
    (subs.foldl submitStep (initQM t0)).total_messages = subs.length := by
  refine ⟨fun qm message user_id now => ⟨rfl, rfl⟩, ?_, ?_, ?_⟩
  · rw [(submits_foldl subs (initQM t0)).1]
    simpa [initQM] using buildMsgs_map_id subs 0
  · rw [(submits_foldl subs (initQM t0)).1]
    simpa [initQM] using buildMsgs_map_payload subs 0
  · rw [(submits_foldl subs (initQM t0)).2]
    simp [initQM]

/-! ### Dispatch characterization -/

/-- A throttled `process_next_message` returns `False` without mutation. -/
theorem process_next_message_throttled (qm : QueueManager)
    (procs : List Procedure) (now : ℚ)
    (h : throttleGuard qm.last_process_time now = true) :
    process_next_message qm procs now = (false, qm) := by
  simp [process_next_message, h]

/-- An unthrottled `process_next_message` on an empty queue returns `False`
without mutation. -/
theorem process_next_message_empty (qm : QueueManager)
    (procs : List Procedure) (now : ℚ)
    (h : throttleGuard qm.last_process_time now = false)
    (hq : qm.message_queue = []) :
    process_next_message qm procs now = (false, qm) := by
  simp [process_next_message, dequeue, h, hq]

/-- An unthrottled `process_next_message` on a non-empty queue pops the head,
appends its response, removes the front of `processing_queue` (after appending
the popped message to it), stamps `last_process_time` and counts the dispatch. -/
theorem process_next_message_cons (qm : QueueManager) (procs : List Procedure)
    (now : ℚ) (msg : Message) (rest : List Message)
    (h : throttleGuard qm.last_process_time now = false)
    (hq : qm.message_queue = msg :: rest) :
    process_next_message qm procs now =
      (true,
       { qm with
         message_queue := rest
         processing_queue := (qm.processing_queue ++ [msg]).tail
         response_queue := qm.response_queue ++ [respOf procs msg now]
         last_process_time := some now
         processed_count := qm.processed_count + 1 }) := by
  simp [process_next_message, dequeue, h, hq, respOf]

/-- A dispatch that returns `True` records its clock reading in
`last_process_time`. -/
theorem dispatch_sets_last_process_time (qm : QueueManager)
    (procs : List Procedure) (now : ℚ)
    (h : (process_next_message qm procs now).1 = true) :
    (process_next_message qm procs now).2.last_process_time = some now := by
  by_cases hg : throttleGuard qm.last_process_time now = true
  · rw [process_next_message_throttled qm procs now hg] at h
    simp at h
  · have hg' : throttleGuard qm.last_process_time now = false := by
      simpa using hg
    cases hq : qm.message_queue with
    | nil =>
      rw [process_next_message_empty qm procs now hg' hq] at h
      simp at h
    | cons msg rest =>
      rw [process_next_message_cons qm procs now msg rest hg' hq]

/-! ### Claim C1 -/

/-- C1 (amended): for every state whose `last_process_time` is set to a nonzero
value `t` with `now - t < 3`, dispatch returns `False` (throttled) and leaves
the state unchanged; consequently a dispatch that returned `True` at a nonzero
clock reading is never followed by a second `True` within 3 time units. -/
theorem C1_rate_limit_amended :
    (∀ (qm : QueueManager) (procs : List Procedure) (now t : ℚ),
      qm.last_process_time = some t → t ≠ 0 → now - t < 3 →
      process_next_message qm procs now = (false, qm)) ∧
    (∀ (qm : QueueManager) (procs : List Procedure) (now₁ now₂ : ℚ),
      now₁ ≠ 0 → (process_next_message qm procs now₁).1 = true →
      now₂ - now₁ < 3 →
      (process_next_message (process_next_message qm procs now₁).2 procs
        now₂).1 = false) := by
  have throttle : ∀ (qm : QueueManager) (procs : List Procedure) (now t : ℚ),
      qm.last_process_time = some t → t ≠ 0 → now - t < 3 →
      process_next_message qm procs now = (false, qm) := by
    intro qm procs now t hl ht hlt
    apply process_next_message_throttled
    rw [hl]
    simp [throttleGuard, ht, hlt]
  refine ⟨throttle, ?_⟩
  intro qm procs now₁ now₂ h0 h1 hlt
  have hl := dispatch_sets_last_process_time qm procs now₁ h1
  rw [throttle _ procs now₂ now₁ hl h0 hlt]

/-- Witness for C1 (amended): a state that dispatched at clock reading 5 is
throttled at clock reading 6. -/
theorem C1_witness :
    process_next_message { initQM 0 with last_process_time := some 5 }
      procedures 6 = (false, { initQM 0 with last_process_time := some 5 }) :=
  C1_rate_limit_amended.1 { initQM 0 with last_process_time := some 5 }
    procedures 6 5 rfl (by norm_num) (by norm_num)

/-- Counterexample to C1 as stated: in `exC1` the field `last_process_time` is
set (to `0`) and `1 - 0 < 3`, yet dispatch at clock reading 1 returns `True`
and mutates the state — Python truthiness treats the zero timestamp as unset. -/
theorem C1_counterexample :
    exC1.last_process_time = some 0 ∧ ((1 : ℚ) - 0 < 3) ∧
    (process_next_message exC1 procedures 1).1 = true ∧
    (process_next_message exC1 procedures 1).2 ≠ exC1 := by
  have hg : throttleGuard exC1.last_process_time 1 = false := by
    norm_num [exC1, initQM, throttleGuard]
  have h3 := process_next_message_cons exC1 procedures 1
    { id := 1, message := "hi", timestamp := .good 0, user_id := "A" } [] hg rfl
  refine ⟨rfl, by norm_num, ?_, ?_⟩
  · rw [h3]
  · rw [h3]
    intro hEq
    have := congrArg QueueManager.message_queue hEq
    simp [exC1, initQM] at this

/-! ### Claim C2 -/

/-- C2 (amended): an unthrottled dispatch on a non-empty queue pops the head
request, appends exactly one response for it (id matching, text the matched
answer or the default help), stamps `last_process_time := now`, increments
`processed_count` and returns `True`; provided `processing_queue` was empty
before the call, it is empty again on return. -/
theorem C2_dispatch_amended (qm : QueueManager) (procs : List Procedure)
    (now : ℚ) (msg : Message) (rest : List Message)
    (hth : throttleGuard qm.last_process_time now = false)
    (hq : qm.message_queue = msg :: rest)
    (hp : qm.processing_queue = []) :
    process_next_message qm procs now =
      (true,
       { qm with
         message_queue := rest
         processing_queue := []
         response_queue := qm.response_queue ++ [respOf procs msg now]
         last_process_time := some now
         processed_count := qm.processed_count + 1 }) ∧
    (respOf procs msg now).id = msg.id ∧
    (respOf procs msg now).user_id = msg.user_id ∧
    (respOf procs msg now).original_message = msg.message ∧
    (respOf procs msg now).response =
      (match search_procedure procs msg.message with
       | some procedure => procedure.response
       | none => get_default_help) := by
  refine ⟨?_, rfl, rfl, rfl, rfl⟩
  rw [process_next_message_cons qm procs now msg rest hth hq, hp]
  rfl

/-- Witness for C2 (amended): dispatching the single pending request of `exC2w`
at clock reading 1. -/
theorem C2_witness :
    process_next_message exC2w procedures 1 =
      (true,
       { exC2w with
         message_queue := []
         processing_queue := []
         response_queue :=
           [respOf procedures
             { id := 1, message := "How do I enroll?", timestamp := .good 0,
               user_id := "A" } 1]
         last_process_time := some 1
         processed_count := 1 }) :=
  (C2_dispatch_amended exC2w procedures 1
    { id := 1, message := "How do I enroll?", timestamp := .good 0,
      user_id := "A" } [] rfl rfl rfl).1

/-- Counterexample to C2 as stated: in `exC2` the queue is non-empty and the
state is not throttled, but after dispatch `processing_queue` is not empty —
the code removes the front of the queue, not the request it just appended, so
the leftover in-flight entry survives. -/
theorem C2_counterexample :
    exC2.message_queue ≠ [] ∧
    throttleGuard exC2.last_process_time 5 = false ∧
    (process_next_message exC2 procedures 5).2.processing_queue ≠ [] := by
  have h3 := process_next_message_cons exC2 procedures 5
    { id := 8, message := "hello", timestamp := .good 0, user_id := "A" } []
    rfl rfl
  refine ⟨by simp [exC2, initQM], rfl, ?_⟩
  rw [h3]
  simp [exC2, initQM]

/-! ### Claim C9 -/

/-- `get_response` never touches the pending queue or either counter, in all
three of its outcomes (miss, hit, exception). -/
theorem get_response_frame (qm : QueueManager) (user_id : String) :
    ((get_response qm user_id).2).message_queue = qm.message_queue ∧
    ((get_response qm user_id).2).total_messages = qm.total_messages ∧
    ((get_response qm user_id).2).processed_count = qm.processed_count := by
  unfold get_response
  split
  · exact ⟨rfl, rfl, rfl⟩
  · split
    · exact ⟨rfl, rfl, rfl⟩
    · exact ⟨rfl, rfl, rfl⟩

/-- No operation decreases `total_messages` or `processed_count`. -/
theorem applyOp_counters_mono (qm : QueueManager) (op : Op) :
    qm.total_messages ≤ (applyOp qm op).total_messages ∧
    qm.processed_count ≤ (applyOp qm op).processed_count := by
  cases op with
  | submit m u now => exact ⟨Nat.le_succ _, Nat.le_refl _⟩
  | dispatch now =>
    show qm.total_messages ≤ (process_next_message qm procedures now).2.total_messages ∧
      qm.processed_count ≤ (process_next_message qm procedures now).2.processed_count
    by_cases hg : throttleGuard qm.last_process_time now = true
    · rw [process_next_message_throttled qm procedures now hg]
      exact ⟨Nat.le_refl _, Nat.le_refl _⟩
    · have hg' : throttleGuard qm.last_process_time now = false := by simpa using hg
      cases hq : qm.message_queue with
      | nil =>
        rw [process_next_message_empty qm procedures now hg' hq]
        exact ⟨Nat.le_refl _, Nat.le_refl _⟩
      | cons msg rest =>
        rw [process_next_message_cons qm procedures now msg rest hg' hq]
        exact ⟨Nat.le_refl _, Nat.le_succ _⟩
  | retrieve u =>
    have hf := get_response_frame qm u
    show qm.total_messages ≤ ((get_response qm u).2).total_messages ∧
      qm.processed_count ≤ ((get_response qm u).2).processed_count
    rw [hf.2.1, hf.2.2]
    exact ⟨Nat.le_refl _, Nat.le_refl _⟩
  | heartbeat u now => exact ⟨Nat.le_refl _, Nat.le_refl _⟩
  | sweep tm now => exact ⟨Nat.le_refl _, Nat.le_refl _⟩

/-- Every operation preserves the bookkeeping invariant
`processed_count + pending length = total_messages`. -/
theorem applyOp_countersInv (qm : QueueManager) (op : Op)
    (h : countersInv qm) : countersInv (applyOp qm op) := by
  cases op with
  | submit m u now =>
    unfold countersInv at h ⊢
    show qm.processed_count + (qm.message_queue ++ [_]).length = qm.total_messages + 1
    rw [List.length_append, List.length_singleton]
    omega
  | dispatch now =>
    unfold countersInv at h ⊢
    show (process_next_message qm procedures now).2.processed_count +
      (process_next_message qm procedures now).2.message_queue.length =
      (process_next_message qm procedures now).2.total_messages
    by_cases hg : throttleGuard qm.last_process_time now = true
    · rw [process_next_message_throttled qm procedures now hg]
      exact h
    · have hg' : throttleGuard qm.last_process_time now = false := by simpa using hg
      cases hq : qm.message_queue with
      | nil =>
        rw [process_next_message_empty qm procedures now hg' hq]
        exact h
      | cons msg rest =>
        rw [process_next_message_cons qm procedures now msg rest hg' hq]
        rw [hq] at h
        simp at h ⊢
        omega
  | retrieve u =>
    unfold countersInv at h ⊢
    have hf := get_response_frame qm u
    show ((get_response qm u).2).processed_count +
      ((get_response qm u).2).message_queue.length =
      ((get_response qm u).2).total_messages
    rw [hf.1, hf.2.1, hf.2.2]
    exact h
  | heartbeat u now => exact h
  | sweep tm now => exact h

/-- The bookkeeping invariant holds along any fold of operations. -/
theorem foldl_applyOp_inv (ops : List Op) :
    ∀ qm : QueueManager, countersInv qm → countersInv (ops.foldl applyOp qm) := by
  induction ops with
  | nil => intro qm h; exact h
  | cons op rest ih =>
    intro qm h
    exact ih _ (applyOp_countersInv qm op h)

/-- C9: in every state reachable from the fresh state by submits, dispatches,
retrievals, heartbeats and sweeps, `processed_count ≤ total_messages`, and no
operation ever decreases either counter. -/
theorem C9_counters_invariant (t0 : ℚ) (ops : List Op) :
    (ops.foldl applyOp (initQM t0)).processed_count ≤
      (ops.foldl applyOp (initQM t0)).total_messages ∧
    ∀ (qm : QueueManager) (op : Op),
      qm.total_messages ≤ (applyOp qm op).total_messages ∧
      qm.processed_count ≤ (applyOp qm op).processed_count := by
  constructor
  · have h := foldl_applyOp_inv ops (initQM t0) (by simp [countersInv, initQM])
    unfold countersInv at h
    omega
  · exact applyOp_counters_mono

/-! ### Claim C3 -/

/-- C3 (amended): `from_dict (to_dict qm)` reproduces the state exactly except
that `conversation_history` is truncated to its last 100 and `queue_log` to
its last 50 entries; `load_queue` performs the same round trip and then sweeps
`active_users` with the load-time 30-unit timeout. -/
theorem C3_roundtrip_amended (qm : QueueManager) (now : ℚ) :
    from_dict (to_dict qm) =
      { qm with
        conversation_history := pyLastN 100 qm.conversation_history
        queue_log := pyLastN 50 qm.queue_log } ∧
    load_queue (to_dict qm) now =
      clean_inactive_users
        { qm with
          conversation_history := pyLastN 100 qm.conversation_history
          queue_log := pyLastN 50 qm.queue_log } 30 now :=
  ⟨rfl, rfl⟩

/-- Counterexample to C3 as stated: saving `exC3` and loading it back at clock
reading 31 does not preserve `active_users` — the load-time sweep drops the
entry aged 31 > 30, although neither transcript nor event log was over cap. -/
theorem C3_counterexample :
    (load_queue (to_dict exC3) 31).active_users ≠ exC3.active_users := by
  have hk : keepActive 31 30 ("A", TStamp.good 0) = false := by
    simp [keepActive, TStamp.parse]
    norm_num
  simp [load_queue, to_dict, from_dict, clean_inactive_users, exC3, initQM,
    List.filter, hk]

/-! ### Claim C4 -/

/-- When no outbox response matches, the scan loop of `get_response` finds
nothing. -/
theorem popFirstResponse_none (user_id : String) :
    ∀ l : List Response, (∀ r ∈ l, r.user_id ≠ user_id) →
      popFirstResponse user_id l = none := by
  intro l
  induction l with
  | nil => intro h; rfl
  | cons r rs ih =>
    intro h
    have hr : ¬(r.user_id = user_id) := h r (List.mem_cons_self r rs)
    simp [popFirstResponse, hr,
      ih (fun x hx => h x (List.mem_cons_of_mem r hx))]

/-- The scan loop of `get_response` pops the first matching response and keeps
everything else in order. -/
theorem popFirstResponse_split (user_id : String) (r : Response)
    (hr : r.user_id = user_id) :
    ∀ (pre post : List Response), (∀ x ∈ pre, x.user_id ≠ user_id) →
      popFirstResponse user_id (pre ++ r :: post) = some (r, pre ++ post) := by
  intro pre
  induction pre with
  | nil => intro post h; simp [popFirstResponse, hr]
  | cons x xs ih =>
    intro post h
    have hx : ¬(x.user_id = user_id) := h x (List.mem_cons_self x xs)
    simp [popFirstResponse, hx,
      ih post (fun y hy => h y (List.mem_cons_of_mem x hy))]

/-- C4 (amended): `get_response` scans the outbox in insertion order; on a miss
it returns `None` with the state unchanged; on a hit (whose stored timestamp
parses) it removes the first matching response, appends one transcript entry
built from it, and returns it — without truncating the transcript. -/
theorem C4_get_response_amended (qm : QueueManager) (user_id : String) :
    ((∀ r ∈ qm.response_queue, r.user_id ≠ user_id) →
      get_response qm user_id = (.ok none, qm)) ∧
    (∀ (pre post : List Response) (r : Response) (t : ℚ),
      qm.response_queue = pre ++ r :: post →
      (∀ x ∈ pre, x.user_id ≠ user_id) →
      r.user_id = user_id →
      r.timestamp = .good t →
      get_response qm user_id =
        (.ok (some r),
         { qm with
           response_queue := pre ++ post
           conversation_history := qm.conversation_history ++
             [{ user := r.original_message, bot := r.response, time := t,
                user_id := user_id }] })) := by
  constructor
  · intro h
    unfold get_response
    rw [popFirstResponse_none user_id qm.response_queue h]
  · intro pre post r t hq hpre hr ht
    unfold get_response
    rw [hq, popFirstResponse_split user_id r hr pre post hpre]
    simp [ht, TStamp.parse]

/-- Witness for C4 (amended): client A retrieves its response from `exC4w`,
which sits behind one response for client B. -/
theorem C4_witness :
    get_response exC4w "A" =
      (.ok (some { id := 2, response := "ra", original_message := "ma",
                   user_id := "A", timestamp := .good 3 }),
       { exC4w with
         response_queue :=
           [{ id := 1, response := "rb", original_message := "mb",
              user_id := "B", timestamp := .good 2 }]
         conversation_history :=
           [{ user := "ma", bot := "ra", time := 3, user_id := "A" }] }) :=
  (C4_get_response_amended exC4w "A").2
    [{ id := 1, response := "rb", original_message := "mb", user_id := "B",
       timestamp := .good 2 }]
    []
    { id := 2, response := "ra", original_message := "ma", user_id := "A",
      timestamp := .good 3 }
    3 rfl (by decide) rfl rfl

/-- Counterexample to C4 as stated: retrieving from `exC4` (transcript already
at 101 entries) leaves the transcript at 102 entries — `get_response` never
truncates it to 100; truncation happens only in `to_dict`. -/
theorem C4_counterexample :
    ((get_response exC4 "A").2).conversation_history.length ≠ 100 := by
  have h : ((get_response exC4 "A").2).conversation_history.length = 102 := rfl
  rw [h]
  omega

/-! ### Claim C6 -/

/-- C6: after `clean_inactive_users(timeout)` every surviving activity entry
parses with age at most the timeout; every dropped entry was either strictly
older than the timeout or unparseable; nothing else in the state changes. -/
theorem C6_clean_inactive_users (qm : QueueManager) (timeout_seconds now : ℚ) :
    (∀ e ∈ (clean_inactive_users qm timeout_seconds now).active_users,
      ∃ t, e.2 = TStamp.good t ∧ now - t ≤ timeout_seconds) ∧
    (∀ e ∈ qm.active_users,
      e ∉ (clean_inactive_users qm timeout_seconds now).active_users →
      (∃ t, e.2 = TStamp.good t ∧ now - t > timeout_seconds) ∨
      (∃ s, e.2 = TStamp.bad s)) ∧
    (clean_inactive_users qm timeout_seconds now).message_queue = qm.message_queue ∧
    (clean_inactive_users qm timeout_seconds now).processing_queue = qm.processing_queue ∧
    (clean_inactive_users qm timeout_seconds now).response_queue = qm.response_queue ∧
    (clean_inactive_users qm timeout_seconds now).conversation_history = qm.conversation_history ∧
    (clean_inactive_users qm timeout_seconds now).start_time = qm.start_time ∧
    (clean_inactive_users qm timeout_seconds now).queue_log = qm.queue_log ∧
    (clean_inactive_users qm timeout_seconds now).last_process_time = qm.last_process_time ∧
    (clean_inactive_users qm timeout_seconds now).total_messages = qm.total_messages ∧
    (clean_inactive_users qm timeout_seconds now).processed_count = qm.processed_count := by
  refine ⟨?_, ?_, rfl, rfl, rfl, rfl, rfl, rfl, rfl, rfl, rfl⟩
  · intro e he
    have h := (List.mem_filter.mp he).2
    obtain ⟨u, ts⟩ := e
    cases ts with
    | good t =>
      refine ⟨t, rfl, ?_⟩
      simp [keepActive, TStamp.parse] at h
      linarith
    | bad s =>
      exfalso
      simp [keepActive, TStamp.parse] at h
  · intro e he hn
    obtain ⟨u, ts⟩ := e
    cases ts with
    | good t =>
      left
      refine ⟨t, rfl, ?_⟩
      by_contra hc
      apply hn
      apply List.mem_filter.mpr
      refine ⟨he, ?_⟩
      simp [keepActive, TStamp.parse]
      linarith [not_lt.mp hc]
    | bad s => exact Or.inr ⟨s, rfl⟩

/-- Witness for C6 on `exC6` with timeout 15 at clock reading 10: the fresh
entry survives with age within the timeout, the unparseable entry is evicted
as unparseable. -/
theorem C6_witness :
    (∃ t, (("A", TStamp.good 0) : String × TStamp).2 = TStamp.good t ∧
      (10 : ℚ) - t ≤ 15) ∧
    ((∃ t, (("B", TStamp.bad "zzz") : String × TStamp).2 = TStamp.good t ∧
      (10 : ℚ) - t > 15) ∨
     (∃ s, (("B", TStamp.bad "zzz") : String × TStamp).2 = TStamp.bad s)) := by
  have hA : keepActive 10 15 ("A", TStamp.good 0) = true := by
    simp [keepActive, TStamp.parse]
    norm_num
  have hB : keepActive 10 15 ("B", TStamp.bad "zzz") = false := by
    simp [keepActive, TStamp.parse]
  have hfil : (clean_inactive_users exC6 15 10).active_users
      = [("A", TStamp.good 0)] := by
    show List.filter (keepActive 10 15)
      [("A", TStamp.good 0), ("B", TStamp.bad "zzz")] = [("A", TStamp.good 0)]
    simp [List.filter_cons, hA, hB]
  have h := C6_clean_inactive_users exC6 15 10
  constructor
  · apply h.1 ("A", TStamp.good 0)
    rw [hfil]
    exact List.mem_singleton_self _
  · apply h.2.1 ("B", TStamp.bad "zzz")
    · simp [exC6, initQM]
    · rw [hfil]
      simp

/-! ### Claim C8 -/

/-- C8 (amended): `get_queue_stats` sweeps inactive users as a side effect and
reports `avg_processing_time` as the exact uptime divided by
`processed_count` when that is positive (else 0), while the returned
`uptime_seconds` field is the `int()`-truncated uptime. -/
theorem C8_stats_amended (qm : QueueManager) (now : ℚ) :
    (get_queue_stats qm now).2 = clean_inactive_users qm 15 now ∧
    (get_queue_stats qm now).1.total_processed = qm.processed_count ∧
    (get_queue_stats qm now).1.avg_processing_time =
      (if qm.processed_count > 0 then
        ((match qm.start_time.parse with
          | some start => now - start
          | none => 0 : ℚ)) / (qm.processed_count : ℚ)
       else 0) ∧
    (get_queue_stats qm now).1.uptime_seconds =
      pyInt (match qm.start_time.parse with
             | some start => now - start
             | none => 0) :=
  ⟨rfl, rfl, rfl, rfl⟩

/-- Counterexample to C8 as stated: on `exC8` at clock reading 15/2 the
returned average is 15/4, while the returned (truncated) `uptime_seconds`
divided by `total_processed` is 7/2. -/
theorem C8_counterexample :
    (get_queue_stats exC8 (15 / 2)).1.avg_processing_time ≠
      ((get_queue_stats exC8 (15 / 2)).1.uptime_seconds : ℚ) /
        ((get_queue_stats exC8 (15 / 2)).1.total_processed : ℚ) := by
  have h1 : (get_queue_stats exC8 (15 / 2)).1.avg_processing_time
      = ((15 / 2 : ℚ) - 0) / ((2 : ℕ) : ℚ) := rfl
  have h2 : (get_queue_stats exC8 (15 / 2)).1.uptime_seconds
      = pyInt ((15 / 2 : ℚ) - 0) := rfl
  have h3 : (get_queue_stats exC8 (15 / 2)).1.total_processed = 2 := rfl
  have h4 : pyInt ((15 / 2 : ℚ) - 0) = 7 := by
    have he : ((15 / 2 : ℚ) - 0) = 15 / 2 := by norm_num
    have hn : ((15 : ℚ) / 2).num = 15 := by norm_num
    have hd : (((15 : ℚ) / 2).den : ℤ) = 2 := by norm_num
    rw [he]
    unfold pyInt
    rw [hn, hd]
    decide
  rw [h1, h2, h3, h4]
  norm_num

/-! ### Claim C10 -/

/-- C10: when `start_time` does not parse, `get_queue_stats` still returns
(the `except` branch fires instead of raising): uptime is reported as 0 and
the average as 0 whatever `processed_count` is. -/
theorem C10_stats_on_unparseable_start (qm : QueueManager) (now : ℚ)
    (s : String) (h : qm.start_time = .bad s) :
    (get_queue_stats qm now).1.uptime_seconds = 0 ∧
    (get_queue_stats qm now).1.avg_processing_time = 0 := by
  by_cases hp : qm.processed_count > 0
  · constructor
    · simp [get_queue_stats, clean_inactive_users, h, TStamp.parse, pyInt]
    · simp [get_queue_stats, clean_inactive_users, h, TStamp.parse, hp]
  · constructor
    · simp [get_queue_stats, clean_inactive_users, h, TStamp.parse, pyInt]
    · simp [get_queue_stats, clean_inactive_users, h, TStamp.parse, hp]

/-- Witness for C10 on `exC10` (five processed requests, unreadable clock) at
clock reading 42. -/
theorem C10_witness :
    (get_queue_stats exC10 42).1.uptime_seconds = 0 ∧
    (get_queue_stats exC10 42).1.avg_processing_time = 0 :=
  C10_stats_on_unparseable_start exC10 42 "not-a-date" rfl

end DSA3
